import Mathlib

/-!
Verification development for mcp-server-unitycatalog, a thin adapter exposing
Unity Catalog functions as MCP tools.  The repository ships only the README,
the Dockerfile and a registration notebook; the adapter logic itself (schema
translation, tool listing, tool invocation, configuration loading) is described
by the specification, so those parts are modelled here directly from the
specification's words.  The notebook function geolocate_ip is embedded from its
source.
-/

/-- A JSON value, as exchanged between the MCP client, the adapter and the
catalog service.  Floating-point literals are carried as uninterpreted decimal
strings since no arithmetic on them occurs in the adapter. -/
inductive JValue where
  | str (s : String)
  | int (n : Int)
  | float (lit : String)
  | bool (b : Bool)
  | jnull
  | arr (elems : List JValue)
  | obj (fields : List (String × JValue))

/-- JSON-schema primitive vocabulary used for Tool Schema fragments
(spec 4.1: output uses the JSON-schema primitive vocabulary). -/
inductive SchemaType where
  | string
  | integer
  | number
  | boolean
  | object
deriving DecidableEq, Repr

/-- Modelled from the spec (section 7): the five error kinds of the adapter.
ConfigurationError carries what is missing; UnsupportedTypeError names the
offending type and parameter; ValidationError names the missing or mistyped
parameter; UpstreamExecutionError carries the upstream message. -/
inductive AdapterError where
  | configurationError (missing : String)
  | catalogUnavailableError (msg : String)
  | unsupportedTypeError (typeName paramName : String)
  | validationError (paramName : String)
  | upstreamExecutionError (msg : String)
deriving DecidableEq, Repr

/-- Modelled from the spec (section 3, Parameter Descriptor): name, position,
declared type, nullability, optional default value, plus the catalog comment
used as the schema fragment description. -/
structure ParamDescriptor where
  name : String
  position : Nat
  typeName : String
  nullable : Bool
  comment : String
  default : Option JValue

/-- Modelled from the spec (section 3, Function Descriptor): fully-qualified
name parts, an ordered list of Parameter Descriptors and a return-type
descriptor. -/
structure FunctionDescriptor where
  catalog : String
  schema : String
  name : String
  comment : String
  params : List ParamDescriptor
  returnType : String

/-- Modelled from the spec (section 3): the fully-qualified name
catalog.schema.function identifying a catalog function. -/
def fullyQualifiedName (f : FunctionDescriptor) : String :=
  f.catalog ++ "." ++ f.schema ++ "." ++ f.name

/-- Modelled from the spec (sections 3 and 4.1): the fixed set of supported
declared types - string, integer, float, boolean, JSON-structured value -
mapped to the JSON-schema primitive vocabulary; everything else is
unsupported. -/
def supportedType : String → Option SchemaType
  | "string" => some SchemaType.string
  | "integer" => some SchemaType.integer
  | "float" => some SchemaType.number
  | "boolean" => some SchemaType.boolean
  | "json" => some SchemaType.object
  | _ => none

/-- Modelled from the spec (section 4.1): the schema fragment derived for one
parameter - type, description, optional default. -/
structure SchemaFragment where
  type : SchemaType
  description : String
  default : Option JValue

/-- Modelled from the spec (section 4.1, Schema Translator): pure mapping from
one Parameter Descriptor to a schema fragment; an unsupported declared type
fails with UnsupportedTypeError naming the offending type and parameter. -/
def translateParam (p : ParamDescriptor) : Except AdapterError SchemaFragment :=
  match supportedType p.typeName with
  | some t => Except.ok ⟨t, p.comment, p.default⟩
  | none => Except.error (AdapterError.unsupportedTypeError p.typeName p.name)

/-- Modelled from the spec (section 3): a parameter is required when it has no
default value and is not nullable. -/
def isRequired (p : ParamDescriptor) : Bool :=
  p.default.isNone && !p.nullable

/-- One property of a Tool Schema: the parameter name, its schema fragment and
its required/optional status (spec section 3, Tool Schema). -/
structure ToolProperty where
  name : String
  fragment : SchemaFragment
  required : Bool

/-- Modelled from the spec (section 3, Tool Schema): the MCP-facing shape
derived 1:1 from a Function Descriptor - a name, a description, and an object
enumerating parameter names, types and required/optional status. -/
structure ToolSchema where
  name : String
  description : String
  properties : List ToolProperty

/-- Translates an ordered parameter list, failing on the first unsupported
parameter (spec sections 4.1 and 4.2: a failing translation aborts). -/
def translateParams : List ParamDescriptor → Except AdapterError (List ToolProperty)
  | [] => Except.ok []
  | p :: ps =>
    match translateParam p with
    | Except.error e => Except.error e
    | Except.ok frag =>
      match translateParams ps with
      | Except.error e => Except.error e
      | Except.ok rest => Except.ok (⟨p.name, frag, isRequired p⟩ :: rest)

/-- Modelled from the spec (sections 3 and 4.1): derives the Tool Schema of a
Function Descriptor by translating each Parameter Descriptor in order. -/
def deriveToolSchema (f : FunctionDescriptor) : Except AdapterError ToolSchema :=
  match translateParams f.params with
  | Except.error e => Except.error e
  | Except.ok props => Except.ok ⟨f.name, f.comment, props⟩

/-- Looks up a supplied argument value by parameter name in an argument
mapping (spec section 3, Invocation Request). -/
def lookupArg (args : List (String × JValue)) (n : String) : Option JValue :=
  (args.find? (fun a => a.fst == n)).map (fun a => a.snd)

/-- Modelled from the spec (section 4.3): whether a supplied value is
coercible to a schema type.  Integers coerce to number; any structured JSON
value matches the object kind. -/
def coercible : JValue → SchemaType → Bool
  | JValue.str _, SchemaType.string => true
  | JValue.int _, SchemaType.integer => true
  | JValue.int _, SchemaType.number => true
  | JValue.float _, SchemaType.number => true
  | JValue.bool _, SchemaType.boolean => true
  | JValue.obj _, SchemaType.object => true
  | JValue.arr _, SchemaType.object => true
  | _, _ => false

/-- The first required property of the schema with no supplied argument, if
any (spec section 4.3: required parameters present). -/
def missingRequired (schema : ToolSchema) (args : List (String × JValue)) : Option String :=
  ((schema.properties.filter (fun p => p.required)).find?
    (fun p => (lookupArg args p.name).isNone)).map (fun p => p.name)

/-- The first property whose supplied argument is not coercible to its
declared schema type, if any (spec section 4.3: types coercible). -/
def mistyped (schema : ToolSchema) (args : List (String × JValue)) : Option String :=
  (schema.properties.find?
    (fun p =>
      match lookupArg args p.name with
      | some v => !(coercible v p.fragment.type)
      | none => false)).map (fun p => p.name)

/-- Modelled from the spec (section 4.3, Tool Invoker): validates supplied
arguments against the Tool Schema; a missing required parameter or a mistyped
parameter produces a ValidationError naming that parameter. -/
def validateArgs (schema : ToolSchema) (args : List (String × JValue)) :
    Except AdapterError Unit :=
  match missingRequired schema args with
  | some n => Except.error (AdapterError.validationError n)
  | none =>
    match mistyped schema args with
    | some n => Except.error (AdapterError.validationError n)
    | none => Except.ok ()

/-- Modelled from the spec (sections 2 and 6, catalog client boundary): the
external catalog client, as the deterministic outcome of its two calls used
per-request - listing the functions of the configured catalog/schema, and
executing a named function with keyword arguments.  An error value models the
call raising (network/auth failure, upstream execution failure). -/
structure CatalogClient where
  listFunctions : Except String (List FunctionDescriptor)
  execFunction : String → List (String × JValue) → Except String JValue

/-- An outbound call performed against the catalog client, recorded so that
the per-request call discipline can be stated (spec section 5). -/
inductive OutboundCall where
  | listFunctions
  | execFunction (fqn : String) (args : List (String × JValue))

/-- An inbound MCP request: list tools, or call a named tool with an argument
mapping (spec section 6, MCP boundary). -/
inductive McpRequest where
  | listTools
  | callTool (name : String) (args : List (String × JValue))

/-- An MCP response envelope: a tool list, a tool result, or a structured
error envelope (spec sections 6 and 7). -/
inductive McpResponse where
  | toolList (schemas : List ToolSchema)
  | toolResult (v : JValue)
  | errorEnvelope (e : AdapterError)

/-- Modelled from the spec (section 6, Configuration): the immutable
configuration value - server URL, catalog name, schema name, optional bearer
token, verbosity. -/
structure Config where
  server : String
  catalog : String
  schema : String
  token : Option String
  verbosity : String
deriving DecidableEq, Repr

/-- Raw configuration as resolved from CLI flags or environment variables,
each possibly absent (spec section 6). -/
structure RawConfig where
  ucServer : Option String
  ucCatalog : Option String
  ucSchema : Option String
  ucToken : Option String
  ucVerbosity : Option String
deriving DecidableEq, Repr

/-- Modelled from the spec (sections 6 and 7): configuration loading; a
missing required server, catalog or schema fails with ConfigurationError and
the process does not start. -/
def loadConfig (raw : RawConfig) : Except AdapterError Config :=
  match raw.ucServer with
  | none => Except.error (AdapterError.configurationError "uc_server")
  | some s =>
    match raw.ucCatalog with
    | none => Except.error (AdapterError.configurationError "uc_catalog")
    | some c =>
      match raw.ucSchema with
      | none => Except.error (AdapterError.configurationError "uc_schema")
      | some sc =>
        Except.ok ⟨s, c, sc, raw.ucToken, raw.ucVerbosity.getD "warn"⟩

/-- Modelled from the spec (section 7): starting the process is loading the
configuration; the only fatal failure is a ConfigurationError. -/
def startServer (raw : RawConfig) : Except AdapterError Config :=
  loadConfig raw

/-- Whether an error kind is fatal: per spec section 7 only ConfigurationError
is fatal. -/
def isFatal : AdapterError → Bool
  | AdapterError.configurationError _ => true
  | _ => false

/-- Derives Tool Schemas for a whole list of Function Descriptors, aborting on
the first failing translation (spec section 4.2: a failing translation for one
function aborts the whole listing). -/
def deriveAll : List FunctionDescriptor → Except AdapterError (List ToolSchema)
  | [] => Except.ok []
  | f :: fs =>
    match deriveToolSchema f with
    | Except.error e => Except.error e
    | Except.ok s =>
      match deriveAll fs with
      | Except.error e => Except.error e
      | Except.ok rest => Except.ok (s :: rest)

/-- Modelled from the spec (section 4.3): resolves a tool name to the
fully-qualified catalog function name using the configured catalog and
schema. -/
def resolveFqn (cfg : Config) (name : String) : String :=
  cfg.catalog ++ "." ++ cfg.schema ++ "." ++ name

/-- Modelled from the spec (sections 2, 4.2, 4.3 and 5, MCP request
dispatcher): handles one inbound MCP request against the immutable
configuration, the adapter's read-only copy of the derived Tool Schemas, and
the catalog client; returns the response envelope together with the list of
outbound catalog calls performed while handling the request.  Listing fetches
the Function Descriptors and translates them all-or-nothing; calling a tool
validates the arguments against the resolved Tool Schema and only then
performs the single execution call, relaying an upstream failure as an
UpstreamExecutionError without retrying. -/
def handleRequest (cfg : Config) (tools : List ToolSchema) (client : CatalogClient) :
    McpRequest → McpResponse × List OutboundCall
  | McpRequest.listTools =>
    (match client.listFunctions with
     | Except.error msg =>
       (McpResponse.errorEnvelope (AdapterError.catalogUnavailableError msg),
        [OutboundCall.listFunctions])
     | Except.ok fns =>
       match deriveAll fns with
       | Except.error e => (McpResponse.errorEnvelope e, [OutboundCall.listFunctions])
       | Except.ok ts => (McpResponse.toolList ts, [OutboundCall.listFunctions]))
  | McpRequest.callTool name args =>
    (match tools.find? (fun t => t.name == name) with
     | none => (McpResponse.errorEnvelope (AdapterError.validationError name), [])
     | some schema =>
       match validateArgs schema args with
       | Except.error e => (McpResponse.errorEnvelope e, [])
       | Except.ok _ =>
         match client.execFunction (resolveFqn cfg name) args with
         | Except.error msg =>
           (McpResponse.errorEnvelope (AdapterError.upstreamExecutionError msg),
            [OutboundCall.execFunction (resolveFqn cfg name) args])
         | Except.ok v =>
           (McpResponse.toolResult v,
            [OutboundCall.execFunction (resolveFqn cfg name) args]))

/-- Following the spec's words (section 8, first property): an argument
mapping satisfies a Tool Schema when every required property has a supplied
value and every supplied value for a declared property is coercible to that
property's type.  This is the spec-side declarative notion, to be compared
with the operational validateArgs. -/
def satisfiesToolSchema (schema : ToolSchema) (args : List (String × JValue)) : Prop :=
  (∀ p ∈ schema.properties, p.required = true → ∃ v, lookupArg args p.name = some v) ∧
  (∀ p ∈ schema.properties, ∀ v, lookupArg args p.name = some v →
    coercible v p.fragment.type = true)

/-- Every declared type of a Function Descriptor's parameters lies in the
supported set. -/
def allSupported (f : FunctionDescriptor) : Prop :=
  ∀ p ∈ f.params, (supportedType p.typeName).isSome = true

/-- Embeds geolocate_ip from src/notebooks/Register Unity Catalog
Functions.ipynb.  The Python body is a single expression
requests.get of the string concatenation of the fixed prefix and ip, followed
by .json().  The oracle argument models the HTTP response body returned by
requests.get for a URL, and parseJson models the .json() parsing of a
response body into a structured JSON value.  The first component of the
result records the URLs of the GET requests issued, in order. -/
def geolocate_ip (oracle : String → String) (parseJson : String → JValue)
    (ip : String) : List String × JValue :=
  let url := "http://ip-api.com/json/" ++ ip
  let responseBody := oracle url
  ([url], parseJson responseBody)

/-! Sample data used by the witnesses. -/

/-- A sample configuration value. -/
def cfgSample : Config := ⟨"http://localhost:8080", "unity", "mcp", none, "warn"⟩

/-- The ip parameter of the example geolocate_ip function (spec section 8). -/
def ipParam : ParamDescriptor :=
  ⟨"ip", 0, "string", false, "The ip address to geolocate", none⟩

/-- The example Function Descriptor geolocate_ip with a single required string
parameter (spec section 8). -/
def geoFn : FunctionDescriptor :=
  ⟨"unity", "mcp", "geolocate_ip",
   "Returns a IP geolocation information of the given ip address.",
   [ipParam], "string"⟩

/-- The Tool Schema derived from geoFn. -/
def geoSchema : ToolSchema :=
  ⟨"geolocate_ip",
   "Returns a IP geolocation information of the given ip address.",
   [⟨"ip", ⟨SchemaType.string, "The ip address to geolocate", none⟩, true⟩]⟩

/-- A parameter with an unsupported declared type. -/
def badParam : ParamDescriptor :=
  ⟨"ts", 0, "timestamp", false, "a timestamp parameter", none⟩

/-- A client whose listing succeeds with no functions and whose execution
raises. -/
def clientA : CatalogClient := ⟨Except.ok [], fun _ _ => Except.error "boom"⟩

/-- A client agreeing with clientA on listing but not on execution. -/
def clientB : CatalogClient := ⟨Except.ok [], fun _ _ => Except.ok (JValue.str "ok")⟩

/-- A client listing exactly the geolocate_ip function. -/
def clientGeo : CatalogClient :=
  ⟨Except.ok [geoFn], fun _ _ => Except.ok (JValue.str "ok")⟩

/-- A client for which every catalog call raises. -/
def clientDown : CatalogClient :=
  ⟨Except.error "connection refused", fun _ _ => Except.error "connection refused"⟩

/-- A client whose listing succeeds but whose execution raises. -/
def clientExecFails : CatalogClient :=
  ⟨Except.ok [geoFn], fun _ _ => Except.error "permission denied"⟩

/-- A well-typed argument mapping for geolocate_ip. -/
def geoArgs : List (String × JValue) := [("ip", JValue.str "8.8.8.8")]

/-! Helper lemmas shared by the claim theorems. -/

/-- A failing parameter translation always fails with UnsupportedTypeError
naming that parameter's declared type and name. -/
theorem translateParam_error_kind (p : ParamDescriptor) (e : AdapterError)
    (h : translateParam p = Except.error e) :
    e = AdapterError.unsupportedTypeError p.typeName p.name := by
  unfold translateParam at h
  cases hs : supportedType p.typeName <;> rw [hs] at h <;> simp_all

/-- A failing parameter-list translation fails with some UnsupportedTypeError. -/
theorem translateParams_error_kind :
    ∀ (l : List ParamDescriptor) (e : AdapterError), translateParams l = Except.error e →
      ∃ t n, e = AdapterError.unsupportedTypeError t n := by
  intro l
  induction l with
  | nil => intro e h; simp [translateParams] at h
  | cons p ps ih =>
    intro e h
    unfold translateParams at h
    cases hp : translateParam p with
    | error e0 =>
      rw [hp] at h
      simp at h
      exact ⟨p.typeName, p.name, h ▸ translateParam_error_kind p e0 hp⟩
    | ok frag =>
      rw [hp] at h
      cases hr : translateParams ps with
      | error e1 => rw [hr] at h; simp at h; exact h ▸ ih e1 hr
      | ok rest => rw [hr] at h; simp at h

/-- A failing schema derivation fails with some UnsupportedTypeError. -/
theorem deriveToolSchema_error_kind (f : FunctionDescriptor) (e : AdapterError)
    (h : deriveToolSchema f = Except.error e) :
    ∃ t n, e = AdapterError.unsupportedTypeError t n := by
  unfold deriveToolSchema at h
  cases hp : translateParams f.params with
  | error e0 => rw [hp] at h; simp at h; exact h ▸ translateParams_error_kind f.params e0 hp
  | ok props => rw [hp] at h; simp at h

/-- A failing whole-listing derivation fails with some UnsupportedTypeError. -/
theorem deriveAll_error_kind :
    ∀ (l : List FunctionDescriptor) (e : AdapterError), deriveAll l = Except.error e →
      ∃ t n, e = AdapterError.unsupportedTypeError t n := by
  intro l
  induction l with
  | nil => intro e h; simp [deriveAll] at h
  | cons f fs ih =>
    intro e h
    unfold deriveAll at h
    cases hf : deriveToolSchema f with
    | error e0 => rw [hf] at h; simp at h; exact h ▸ deriveToolSchema_error_kind f e0 hf
    | ok s =>
      rw [hf] at h
      cases hr : deriveAll fs with
      | error e1 => rw [hr] at h; simp at h; exact h ▸ ih e1 hr
      | ok rest => rw [hr] at h; simp at h

/-- A failing argument validation fails with some ValidationError. -/
theorem validateArgs_error_kind (schema : ToolSchema) (args : List (String × JValue))
    (e : AdapterError) (h : validateArgs schema args = Except.error e) :
    ∃ n, e = AdapterError.validationError n := by
  unfold validateArgs at h
  cases hm : missingRequired schema args with
  | some n => rw [hm] at h; simp at h; exact ⟨n, h.symm⟩
  | none =>
    rw [hm] at h
    cases ht : mistyped schema args with
    | some n => rw [ht] at h; simp at h; exact ⟨n, h.symm⟩
    | none => rw [ht] at h; simp at h

/-- A successful whole-listing derivation produces exactly one Tool Schema per
Function Descriptor: the lengths agree and every listed function's derived
schema appears in the result. -/
theorem deriveAll_ok_complete :
    ∀ (l : List FunctionDescriptor) (ts : List ToolSchema), deriveAll l = Except.ok ts →
      ts.length = l.length ∧ ∀ f ∈ l, ∃ s ∈ ts, deriveToolSchema f = Except.ok s := by
  intro l
  induction l with
  | nil =>
    intro ts h
    simp [deriveAll] at h
    subst h
    simp
  | cons f fs ih =>
    intro ts h
    unfold deriveAll at h
    cases hf : deriveToolSchema f with
    | error e0 => rw [hf] at h; simp at h
    | ok s =>
      rw [hf] at h
      cases hr : deriveAll fs with
      | error e1 => rw [hr] at h; simp at h
      | ok rest =>
        rw [hr] at h
        simp at h
        subst h
        obtain ⟨hlen, hall⟩ := ih rest hr
        refine ⟨by simp [hlen], ?_⟩
        intro g hg
        rcases List.mem_cons.mp hg with hgf | hgfs
        · exact ⟨s, List.mem_cons_self s rest, hgf ▸ hf⟩
        · obtain ⟨s0, hs0, hds0⟩ := hall g hgfs
          exact ⟨s0, List.mem_cons_of_mem s hs0, hds0⟩

/-! Claim theorems. -/

/-- C1. Schema derivation is deterministic: deriving a Function Descriptor's
Tool Schema twice yields an identical schema, and two list-tools requests made
against catalog states that agree on the listed functions return identical
lists of Tool Schemas (the listing outcome depends on nothing else). -/
theorem c1_schema_derivation_deterministic :
    (∀ f : FunctionDescriptor, deriveToolSchema f = deriveToolSchema f) ∧
    (∀ (cfg : Config) (tools : List ToolSchema) (c1 c2 : CatalogClient),
      c1.listFunctions = c2.listFunctions →
      handleRequest cfg tools c1 McpRequest.listTools =
        handleRequest cfg tools c2 McpRequest.listTools) := by
  refine ⟨fun _ => rfl, ?_⟩
  intro cfg tools c1 c2 h
  simp only [handleRequest, h]

/-- Witness for C1 at two concrete clients that agree on listing but differ on
execution. -/
theorem c1_schema_derivation_deterministic_witness :
    clientA.listFunctions = clientB.listFunctions ∧
    handleRequest cfgSample [] clientA McpRequest.listTools =
      handleRequest cfgSample [] clientB McpRequest.listTools :=
  ⟨rfl, c1_schema_derivation_deterministic.2 cfgSample [] clientA clientB rfl⟩

/-- C2. For every Parameter Descriptor whose declared type is not in the
supported set, the Schema Translator fails with an UnsupportedTypeError naming
the offending type and parameter, and never produces a schema fragment. -/
theorem c2_unsupported_type_fails (p : ParamDescriptor)
    (h : supportedType p.typeName = none) :
    translateParam p =
      Except.error (AdapterError.unsupportedTypeError p.typeName p.name) ∧
    ∀ frag, translateParam p ≠ Except.ok frag := by
  refine ⟨by simp [translateParam, h], ?_⟩
  intro frag hcontra
  rw [translateParam, h] at hcontra
  exact Except.noConfusion hcontra

/-- Witness for C2 at a parameter of declared type timestamp. -/
theorem c2_unsupported_type_fails_witness :
    translateParam badParam =
      Except.error (AdapterError.unsupportedTypeError "timestamp" "ts") ∧
    ∀ frag, translateParam badParam ≠ Except.ok frag :=
  c2_unsupported_type_fails badParam rfl

/-- C9. Handling any single inbound MCP request performs at most one outbound
call to the catalog client; the adapter's handling is a single sequential
computation over that call's outcome, with no background work. -/
theorem c9_at_most_one_outbound_call (cfg : Config) (tools : List ToolSchema)
    (client : CatalogClient) (req : McpRequest) :
    (handleRequest cfg tools client req).2.length ≤ 1 := by
  cases req with
  | listTools =>
    simp only [handleRequest]
    split
    · simp
    · split <;> simp
  | callTool name args =>
    simp only [handleRequest]
    split
    · simp
    · split
      · simp
      · split <;> simp

/-- C10. The notebook function geolocate_ip issues exactly one GET request, to
the URL formed by concatenating the fixed prefix with the ip argument, and
relays the parsed JSON body of that response; the relayed value is the parsed
structured JSON value, which need not be a plain string despite the declared
str annotation, as the concrete instantiation shows. -/
theorem c10_geolocate_ip_get_and_json :
    (∀ (oracle : String → String) (parseJson : String → JValue) (ip : String),
      geolocate_ip oracle parseJson ip =
        (["http://ip-api.com/json/" ++ ip],
         parseJson (oracle ("http://ip-api.com/json/" ++ ip)))) ∧
    (geolocate_ip (fun _ => "body")
        (fun _ => JValue.obj [("status", JValue.str "success")]) "8.8.8.8").snd =
      JValue.obj [("status", JValue.str "success")] ∧
    ∀ s, JValue.obj [("status", JValue.str "success")] ≠ JValue.str s :=
  ⟨fun _ _ _ => rfl, rfl, fun _ h => JValue.noConfusion h⟩

/-- C3. A call-tool request whose argument mapping omits a required parameter
of the resolved Tool Schema is answered with a ValidationError naming a
missing required parameter, as a tool-call error, and no outbound catalog
call is performed for that request. -/
theorem c3_missing_required_validation_error
    (cfg : Config) (tools : List ToolSchema) (client : CatalogClient)
    (name : String) (args : List (String × JValue)) (schema : ToolSchema)
    (hfind : tools.find? (fun t => t.name == name) = some schema)
    (hmiss : ∃ p ∈ schema.properties, p.required = true ∧ lookupArg args p.name = none) :
    ∃ n, (∃ p ∈ schema.properties, p.required = true ∧ p.name = n ∧
            lookupArg args n = none) ∧
      handleRequest cfg tools client (McpRequest.callTool name args) =
        (McpResponse.errorEnvelope (AdapterError.validationError n), []) := by
  obtain ⟨p, hp, hreq, hlook⟩ := hmiss
  have hpf : p ∈ schema.properties.filter (fun q => q.required) :=
    List.mem_filter.mpr ⟨hp, hreq⟩
  have hsome :
      ((schema.properties.filter (fun q => q.required)).find?
        (fun q => (lookupArg args q.name).isNone)).isSome := by
    exact List.find?_isSome.mpr ⟨p, hpf, by simp [hlook]⟩
  obtain ⟨q, hq⟩ := Option.isSome_iff_exists.mp hsome
  have hqmem := List.mem_of_find?_eq_some hq
  have hqpred := List.find?_some hq
  have hqprops := List.mem_filter.mp hqmem
  have hqlook : lookupArg args q.name = none := by
    simpa using hqpred
  have hmr : missingRequired schema args = some q.name := by
    simp [missingRequired, hq]
  have hval : validateArgs schema args =
      Except.error (AdapterError.validationError q.name) := by
    simp [validateArgs, hmr]
  refine ⟨q.name, ⟨q, hqprops.1, hqprops.2, rfl, hqlook⟩, ?_⟩
  simp [handleRequest, hfind, hval]

/-- Witness for C3: calling geolocate_ip with the empty argument mapping. -/
theorem c3_missing_required_validation_error_witness :
    ∃ n, (∃ p ∈ geoSchema.properties, p.required = true ∧ p.name = n ∧
            lookupArg [] n = none) ∧
      handleRequest cfgSample [geoSchema] clientA (McpRequest.callTool "geolocate_ip" []) =
        (McpResponse.errorEnvelope (AdapterError.validationError n), []) :=
  c3_missing_required_validation_error cfgSample [geoSchema] clientA
    "geolocate_ip" [] geoSchema rfl
    ⟨⟨"ip", ⟨SchemaType.string, "The ip address to geolocate", none⟩, true⟩,
      by simp [geoSchema], rfl, rfl⟩

/-- C4. Round trip of translation and validation: for a Function Descriptor
with only supported parameter types, any argument mapping that satisfies the
derived Tool Schema is accepted by the Tool Invoker's validation step. -/
theorem c4_satisfying_args_accepted (f : FunctionDescriptor) (schema : ToolSchema)
    (args : List (String × JValue))
    (hsup : allSupported f)
    (hder : deriveToolSchema f = Except.ok schema)
    (hsat : satisfiesToolSchema schema args) :
    validateArgs schema args = Except.ok () := by
  obtain ⟨hreq, htyp⟩ := hsat
  have hmr : missingRequired schema args = none := by
    have hfind :
        (schema.properties.filter (fun q => q.required)).find?
          (fun q => (lookupArg args q.name).isNone) = none := by
      apply List.find?_eq_none.mpr
      intro q hqmem
      have hqprops := List.mem_filter.mp hqmem
      obtain ⟨v, hv⟩ := hreq q hqprops.1 hqprops.2
      simp [hv]
    simp [missingRequired, hfind]
  have hmt : mistyped schema args = none := by
    have hfind :
        schema.properties.find?
          (fun q =>
            match lookupArg args q.name with
            | some v => !(coercible v q.fragment.type)
            | none => false) = none := by
      apply List.find?_eq_none.mpr
      intro q hqmem
      cases hl : lookupArg args q.name with
      | none => simp [hl]
      | some v =>
        have hc := htyp q hqmem v hl
        simp [hl, hc]
    simp [mistyped, hfind]
  simp [validateArgs, hmr, hmt]

/-- Witness for C4: the geolocate_ip descriptor with a well-typed argument. -/
theorem c4_satisfying_args_accepted_witness :
    validateArgs geoSchema geoArgs = Except.ok () :=
  c4_satisfying_args_accepted geoFn geoSchema geoArgs
    (by
      intro p hp
      simp [geoFn, ipParam] at hp
      subst hp
      rfl)
    rfl
    (by
      constructor
      · intro p hp _
        simp [geoSchema] at hp
        subst hp
        exact ⟨JValue.str "8.8.8.8", rfl⟩
      · intro p hp v hv
        simp [geoSchema] at hp
        subst hp
        simp [geoArgs, lookupArg] at hv
        subst hv
        rfl)

/-- C5. Tool listing is all-or-nothing: a successful list-tools response can
only arise when the catalog client call succeeded and every listed Function
Descriptor translated successfully, with exactly one Tool Schema per function
and no function dropped; hence a failing catalog call or a failing translation
makes the whole listing fail. -/
theorem c5_listing_all_or_nothing
    (cfg : Config) (tools : List ToolSchema) (client : CatalogClient)
    (ts : List ToolSchema) (calls : List OutboundCall)
    (h : handleRequest cfg tools client McpRequest.listTools =
      (McpResponse.toolList ts, calls)) :
    ∃ fns, client.listFunctions = Except.ok fns ∧ deriveAll fns = Except.ok ts ∧
      ts.length = fns.length ∧
      ∀ f ∈ fns, ∃ s ∈ ts, deriveToolSchema f = Except.ok s := by
  cases hlf : client.listFunctions with
  | error msg => simp [handleRequest, hlf] at h
  | ok fns =>
    cases hda : deriveAll fns with
    | error e => simp [handleRequest, hlf, hda] at h
    | ok ts0 =>
      simp [handleRequest, hlf, hda] at h
      obtain ⟨hts, _⟩ := h
      subst hts
      obtain ⟨hlen, hall⟩ := deriveAll_ok_complete fns ts0 hda
      exact ⟨fns, rfl, hda, hlen, hall⟩

/-- Witness for C5: a successful listing of the single geolocate_ip function. -/
theorem c5_listing_all_or_nothing_witness :
    ∃ fns, clientGeo.listFunctions = Except.ok fns ∧
      deriveAll fns = Except.ok [geoSchema] ∧
      [geoSchema].length = fns.length ∧
      ∀ f ∈ fns, ∃ s ∈ [geoSchema], deriveToolSchema f = Except.ok s :=
  c5_listing_all_or_nothing cfgSample [] clientGeo [geoSchema]
    [OutboundCall.listFunctions] rfl

/-- C6. A call-tool request that passes validation and whose catalog execution
call raises is answered with an UpstreamExecutionError carrying the upstream
message, and exactly one outbound execution attempt is made: the failure is
reported once and not retried. -/
theorem c6_upstream_failure_relayed_once
    (cfg : Config) (tools : List ToolSchema) (client : CatalogClient)
    (name : String) (args : List (String × JValue)) (schema : ToolSchema)
    (msg : String)
    (hfind : tools.find? (fun t => t.name == name) = some schema)
    (hval : validateArgs schema args = Except.ok ())
    (hexec : client.execFunction (resolveFqn cfg name) args = Except.error msg) :
    handleRequest cfg tools client (McpRequest.callTool name args) =
      (McpResponse.errorEnvelope (AdapterError.upstreamExecutionError msg),
       [OutboundCall.execFunction (resolveFqn cfg name) args]) := by
  simp [handleRequest, hfind, hval, hexec]

/-- Witness for C6: calling geolocate_ip with a well-typed argument against a
client whose execution raises permission denied. -/
theorem c6_upstream_failure_relayed_once_witness :
    handleRequest cfgSample [geoSchema] clientExecFails
        (McpRequest.callTool "geolocate_ip" geoArgs) =
      (McpResponse.errorEnvelope
        (AdapterError.upstreamExecutionError "permission denied"),
       [OutboundCall.execFunction (resolveFqn cfgSample "geolocate_ip") geoArgs]) :=
  c6_upstream_failure_relayed_once cfgSample [geoSchema] clientExecFails
    "geolocate_ip" geoArgs geoSchema "permission denied" rfl rfl rfl

/-- C7. Of the five error kinds only ConfigurationError is fatal: a failing
startup always fails with a ConfigurationError, while every error produced
while handling an MCP request is reported as a structured error envelope of a
non-fatal kind, the handler being a total function of the request. -/
theorem c7_only_configuration_error_fatal :
    (∀ raw e, startServer raw = Except.error e → isFatal e = true) ∧
    (∀ (cfg : Config) (tools : List ToolSchema) (client : CatalogClient)
       (req : McpRequest) (e : AdapterError) (calls : List OutboundCall),
      handleRequest cfg tools client req = (McpResponse.errorEnvelope e, calls) →
      isFatal e = false) := by
  constructor
  · intro raw e h
    unfold startServer loadConfig at h
    split at h
    · injection h with h2
      rw [← h2]
      rfl
    · split at h
      · injection h with h2
        rw [← h2]
        rfl
      · split at h
        · injection h with h2
          rw [← h2]
          rfl
        · exact Except.noConfusion h
  · intro cfg tools client req e calls h
    cases req with
    | listTools =>
      cases hlf : client.listFunctions with
      | error msg =>
        simp [handleRequest, hlf] at h
        obtain ⟨h1, _⟩ := h
        subst h1
        rfl
      | ok fns =>
        cases hda : deriveAll fns with
        | error e0 =>
          simp [handleRequest, hlf, hda] at h
          obtain ⟨h1, _⟩ := h
          subst h1
          obtain ⟨t, n, ht⟩ := deriveAll_error_kind fns e0 hda
          rw [ht]
          rfl
        | ok ts => simp [handleRequest, hlf, hda] at h
    | callTool name args =>
      cases hfind : tools.find? (fun t => t.name == name) with
      | none =>
        simp [handleRequest, hfind] at h
        obtain ⟨h1, _⟩ := h
        subst h1
        rfl
      | some schema =>
        cases hval : validateArgs schema args with
        | error e0 =>
          simp [handleRequest, hfind, hval] at h
          obtain ⟨h1, _⟩ := h
          subst h1
          obtain ⟨n, hn⟩ := validateArgs_error_kind schema args e0 hval
          rw [hn]
          rfl
        | ok u =>
          cases u
          cases hexec : client.execFunction (resolveFqn cfg name) args with
          | error msg =>
            simp [handleRequest, hfind, hval, hexec] at h
            obtain ⟨h1, _⟩ := h
            subst h1
            rfl
          | ok v => simp [handleRequest, hfind, hval, hexec] at h

/-- Witness for C7: a startup with no configured server fails fatally, while a
catalog outage during listing is a non-fatal structured error. -/
theorem c7_only_configuration_error_fatal_witness :
    isFatal (AdapterError.configurationError "uc_server") = true ∧
    isFatal (AdapterError.catalogUnavailableError "connection refused") = false :=
  ⟨c7_only_configuration_error_fatal.1 ⟨none, none, none, none, none⟩
      (AdapterError.configurationError "uc_server") rfl,
   c7_only_configuration_error_fatal.2 cfgSample [] clientDown
      McpRequest.listTools (AdapterError.catalogUnavailableError "connection refused")
      [OutboundCall.listFunctions] rfl⟩

/-- Every parameter list with only supported types translates successfully,
and the derived properties carry exactly the parameter names in order. -/
theorem translateParams_names (l : List ParamDescriptor)
    (h : ∀ p ∈ l, (supportedType p.typeName).isSome = true) :
    ∃ props, translateParams l = Except.ok props ∧
      props.map (fun q => q.name) = l.map (fun p => p.name) := by
  induction l with
  | nil => exact ⟨[], rfl, rfl⟩
  | cons p ps ih =>
    have hp := h p (List.mem_cons_self p ps)
    obtain ⟨t, ht⟩ := Option.isSome_iff_exists.mp hp
    have htp : translateParam p = Except.ok ⟨t, p.comment, p.default⟩ := by
      simp [translateParam, ht]
    obtain ⟨props, hps, hnames⟩ := ih (fun q hq => h q (List.mem_cons_of_mem p hq))
    refine ⟨⟨p.name, ⟨t, p.comment, p.default⟩, isRequired p⟩ :: props, ?_, ?_⟩
    · simp [translateParams, htp, hps]
    · simp [hnames]

/-- C8. For a Function Descriptor with only supported parameter types, schema
derivation succeeds and yields exactly one property per Parameter Descriptor:
the ordered list of property names equals the ordered list of parameter names,
so the positional mapping is a bijection with no parameter dropped, duplicated
or merged. -/
theorem c8_params_properties_bijection (f : FunctionDescriptor)
    (hsup : allSupported f) :
    ∃ schema, deriveToolSchema f = Except.ok schema ∧
      schema.properties.map (fun q => q.name) = f.params.map (fun p => p.name) ∧
      schema.properties.length = f.params.length := by
  obtain ⟨props, hps, hnames⟩ := translateParams_names f.params hsup
  refine ⟨⟨f.name, f.comment, props⟩, ?_, hnames, ?_⟩
  · simp [deriveToolSchema, hps]
  · have hlen := congrArg List.length hnames
    simpa using hlen

/-- Witness for C8 at the geolocate_ip descriptor. -/
theorem c8_params_properties_bijection_witness :
    ∃ schema, deriveToolSchema geoFn = Except.ok schema ∧
      schema.properties.map (fun q => q.name) = geoFn.params.map (fun p => p.name) ∧
      schema.properties.length = geoFn.params.length :=
  c8_params_properties_bijection geoFn
    (by
      intro p hp
      simp [geoFn, ipParam] at hp
      subst hp
      rfl)
